import Mathlib

/-!
Shallow embedding of the concurrency and lifecycle core of the
nvidia-video-codec decode/encode coordinator (src/src/cuvid/decoder.rs,
src/src/cuvid/gpu_frame.rs, src/src/cuvid/encoder.rs), together with
theorems settling the spec claims.

Machine integers are modelled as Nat/Int with explicit wrap where the Rust
code can overflow.  External engine calls (CUDA / NVDEC / NVENC) are
modelled by environment records carrying the status and out-parameters the
code observes.  Blocking waits (condition variables, channel receives,
the frame-in-use polling loop) are modelled by an explicit `blocked`
outcome or by guarded transition relations.
-/

namespace NvCodec

/-! ### Enumerations (src/src/cuvid/surface.rs, chroma.rs)

`VideoSurfaceFormat` and `VideoChromaFormat` are field-less Rust enums with
`#[repr(u32)]` discriminants taken from the SDK headers (the bindgen crate
is external).  The `From<u32>` conversions are bijections on valid raw
values and panic otherwise; the model carries the enums directly for
well-formed formats. -/

inductive VideoSurfaceFormat where
  | NV12
  | P016
  | YUV444
  | YUV444_16
deriving DecidableEq, Repr

/-- SDK numeric value of each surface format (`cudaVideoSurfaceFormat`),
used in `1 << (format as u16)` output-format-mask tests. -/
def VideoSurfaceFormat.code : VideoSurfaceFormat → Nat
  | .NV12 => 0
  | .P016 => 1
  | .YUV444 => 2
  | .YUV444_16 => 3

inductive VideoChromaFormat where
  | Monochrome
  | YUV420
  | YUV422
  | YUV444
deriving DecidableEq, Repr

/-! ### Frames-in-flight gate (decoder.rs lines 682-689, gpu_frame.rs lines 51-56)

The counter is `Mutex<usize>` + `Condvar`; we model the count as `Int` so
that a decrement below zero would be visible.  Acquisition happens in
`FramesIter::map_frame`:

    while *count >= self.inner.current_output_surfaces { count = cvar.wait(count) }
    *count = *count + 1; cvar.notify_one();

Release happens in `GpuFrame::drop`:

    *count = *count - 1; cvar.notify_one();

`gateAcquire` returns `none` when the caller would block (count still at or
above the bound), otherwise the incremented count.  `gpuFrameDropCount`
returns the decremented count together with the number of `notify_one`
calls performed. -/

def gateAcquire (bound : Nat) (count : Int) : Option Int :=
  if count < (bound : Int) then some (count + 1) else none

def gpuFrameDropCount (count : Int) : Int × Nat :=
  (count - 1, 1)

/-- Reachable states of the frames-in-flight gate: `GateReach bound c h`
means the counter holds `c` while `h` mapped `GpuFrame` handles are
outstanding.  An acquisition is the gate step of `map_frame` (it creates
one handle); a release is the `Drop` of an existing handle, so it is only
possible when `h > 0`. -/
inductive GateReach (bound : Nat) : Int → Nat → Prop where
  | start : GateReach bound 0 0
  | acquire {c c' : Int} {h : Nat} :
      GateReach bound c h → gateAcquire bound c = some c' → GateReach bound c' (h + 1)
  | release {c : Int} {h : Nat} :
      GateReach bound c (h + 1) → GateReach bound (gpuFrameDropCount c).1 h

/-! ### Encoder resource pool (encoder.rs lines 692-715)

    pub fn get(&self) -> Permit {
        ... while pool.len() == 0 { pool = cvar.wait(pool) }
        Permit(pool.pop_front().unwrap())
    }
    pub fn put(&self, permit: Permit) {
        ... pool.push_back(permit.0); cvar.notify_one();
    }

The free queue is a `VecDeque<usize>`, initialised to `0..C`. `poolGet`
returns `none` when the caller would block on the empty queue.  `poolPut`
returns the queue with the index pushed back together with the number of
`notify_one` calls performed (encoder.rs line 713). -/

def poolGet (free : List Nat) : Option (Nat × List Nat) :=
  match free with
  | [] => none
  | p :: rest => some (p, rest)

def poolPut (free : List Nat) (p : Nat) : List Nat × Nat :=
  (free ++ [p], 1)

/-- Reachable states of the pool: the free queue together with the multiset
of outstanding permits.  A `put` returns a permit that is actually
outstanding (the `Permit` token is consumed by `put`). -/
inductive PoolReach (C : Nat) : List Nat → Multiset Nat → Prop where
  | start : PoolReach C (List.range C) 0
  | get {free free' : List Nat} {p : Nat} {out : Multiset Nat} :
      PoolReach C free out → poolGet free = some (p, free') →
      PoolReach C free' (p ::ₘ out)
  | put {free : List Nat} {p : Nat} {out : Multiset Nat} :
      PoolReach C free out → p ∈ out →
      PoolReach C (poolPut free p).1 (out.erase p)

/-! ### Picture display callback (decoder.rs lines 609-644)

State visible to `Inner::picture_display_cb`: whether `self.sender` is
still `Some` (it is dropped via `take()` on the end-of-stream sentinel),
whether the receiving side of the flume channel is still alive (a `send`
fails exactly when every receiver is gone), and the frames queued so far.
The callback argument is `Option DispInfo`: `none` models a null
`*mut CUVIDPARSERDISPINFO`. -/

structure ProcParams where
  progressive_frame : Int
  second_field : Int
  top_field_first : Int
  unpaired_field : Int
deriving DecidableEq, Repr

structure DispInfo where
  picture_index : Int
  timestamp : Int
  progressive_frame : Int
  repeat_first_field : Int
  top_field_first : Int
deriving DecidableEq, Repr

structure PreparedFrame where
  timestamp : Int
  index : Int
  parameters : ProcParams
deriving DecidableEq, Repr

structure DisplayState where
  senderOpen : Bool
  receiverAlive : Bool
  channel : List PreparedFrame
deriving DecidableEq, Repr

def picture_display_cb (s : DisplayState) (info : Option DispInfo) :
    DisplayState × Int :=
  match info with
  | none => ({ s with senderOpen := false }, 1)
  | some di =>
    if s.senderOpen = false then (s, 1)
    else
      let params : ProcParams :=
        { progressive_frame := di.progressive_frame
          second_field := di.repeat_first_field + 1
          top_field_first := di.top_field_first
          unpaired_field := if di.repeat_first_field < 0 then 1 else 0 }
      let pf : PreparedFrame :=
        { timestamp := di.timestamp
          index := di.picture_index
          parameters := params }
      if s.receiverAlive then ({ s with channel := s.channel ++ [pf] }, 1)
      else (s, 0)

/-! ### Encoder pipelined submission (encoder.rs lines 365-455)

`Encoder::queue_gpu_frame` panics if `send_eos` already discarded the
sender; otherwise, after registering and mapping the input resource, it
submits the picture and dispatches on the engine status:

    Ok(_) => { for resource in self.inner.pending.drain(..) { sender.send(resource) }
               sender.send(resource); Ok(true) }
    Err(NV_ENC_ERR_NEED_MORE_INPUT) => { self.inner.pending.push(resource); Ok(false) }
    Err(err) => Err(err)

Mapped input resources are identified by their id here; `pending` is the
lookahead deferral queue `Inner::pending` and `channel` the retrieval
channel contents in send order. -/

inductive SubmitStatus where
  | success
  | needMoreInput
  | err (code : Nat)
deriving DecidableEq, Repr

structure EncPipelineState where
  senderOpen : Bool
  pending : List Nat
  channel : List Nat
deriving DecidableEq, Repr

inductive QueueResult where
  | panicked
  | ok (flushed : Bool)
  | error (code : Nat)
deriving DecidableEq, Repr

def queue_gpu_frame (s : EncPipelineState) (r : Nat) (st : SubmitStatus) :
    EncPipelineState × QueueResult :=
  if s.senderOpen = false then (s, QueueResult.panicked)
  else
    match st with
    | .success =>
        ({ s with pending := [], channel := s.channel ++ s.pending ++ [r] },
         QueueResult.ok true)
    | .needMoreInput =>
        ({ s with pending := s.pending ++ [r] }, QueueResult.ok false)
    | .err c => (s, QueueResult.error c)

/-! ### Encoder bitstream retrieval (encoder.rs lines 668-682)

    fn next(&mut self) -> Option<Self::Item> {
        let input_resource = self.receiver.recv().ok()?;
        let bitstreams = self.bitstream.upgrade()?;
        ...
        let vec = match bitstream.to_vec() { Ok(vec) => Some(vec), Err(_) => None };
        self.pool.put(input_resource.permit);
        vec
    }

`FramesIter` holds a `Weak` on the bitstream vector; once the `Encoder`
(and its `Inner`) is dropped the upgrade fails and the channel's sender is
gone, so `recv` on an empty queue errors instead of blocking.
`tovec p = none` models `BitStream::to_vec` failing for permit `p`. -/

structure EncFramesState where
  channel : List Nat
  senderOpen : Bool
  bitstreamAlive : Bool
deriving DecidableEq, Repr

inductive EncNext where
  | blocked
  | eos
  | yields (bytes : List Nat) (keyframe : Bool) (duration : Nat) (timestamp : Nat)
deriving DecidableEq, Repr

def enc_frames_next (s : EncFramesState)
    (tovec : Nat → Option (List Nat × Bool × Nat × Nat)) :
    EncNext × EncFramesState :=
  match s.channel with
  | [] => if s.senderOpen then (EncNext.blocked, s) else (EncNext.eos, s)
  | p :: rest =>
    if s.bitstreamAlive = false then (EncNext.eos, { s with channel := rest })
    else
      match tovec p with
      | some (b, k, d, t) => (EncNext.yields b k d t, { s with channel := rest })
      | none => (EncNext.eos, { s with channel := rest })

/-! ### Frame-in-use tracker (decoder.rs lines 239-254)

One 64-bit atomic word; `is_frame_in_use` tests bit `idx`,
`set_frame_status` is `fetch_or(1 << idx)` / `fetch_and(!(1 << idx))`. -/

def is_frame_in_use (mask : Nat) (idx : Nat) : Bool :=
  mask &&& (1 <<< idx) != 0

def set_frame_status (mask : Nat) (idx : Nat) (status : Bool) : Nat :=
  if status then mask ||| (1 <<< idx)
  else mask &&& ((2 ^ 64 - 1) ^^^ (1 <<< idx))

/-- `v as usize` on an `i32` value: two's-complement reinterpretation into
64 bits (negative values land far above 64). -/
def i32_as_usize (v : Int) : Nat :=
  (v % (2 : Int) ^ 64).toNat

/-- `v as i32` on a `u64` value: truncation to 32 bits, two's complement. -/
def u64_as_i32 (v : Nat) : Int :=
  let r : Nat := v % 2 ^ 32
  if r < 2 ^ 31 then (r : Int) else (r : Int) - 2 ^ 32

/-! ### Picture decode callback (decoder.rs lines 556-607)

Control flow of `Inner::picture_decode_cb`:
1. decoder null at entry -> return 0;
2. `pic_idx = pic_params.CurrPicIdx as usize`; `pic_idx >= 64` -> panic;
3. poll (500 us sleep per iteration) until the tracker reports the surface
   free;
4. decoder null after the wait (torn down meanwhile) -> return 0;
5. mark the surface in use, then push context / submit decode / pop
   context, returning 0 on any engine failure and 1 on success.

`maskAt t` is the `frame_in_use` word observed at the `t`-th poll; `fuel`
bounds how many polls the model unrolls, `blocked` standing for a wait
that has not yet ended.  The second component of the result records the
index marked in use by `set_frame_status(idx, true)`, if reached. -/

structure DecodeCbEnv where
  decoderNullAtEntry : Bool
  maskAt : Nat → Nat
  decoderNullAfterWait : Bool
  pushOk : Bool
  decodeOk : Bool
  popOk : Bool

def pollsUntilFree (maskAt : Nat → Nat) (idx : Nat) (fuel : Nat) : Option Nat :=
  (List.range fuel).find? (fun t => ! is_frame_in_use (maskAt t) idx)

inductive CbOutcome where
  | panics
  | blocked
  | returns (code : Int)
deriving DecidableEq, Repr

def picture_decode_cb (env : DecodeCbEnv) (currPicIdx : Int) (fuel : Nat) :
    CbOutcome × Option Nat :=
  if env.decoderNullAtEntry then (CbOutcome.returns 0, none)
  else
    let pic_idx := i32_as_usize currPicIdx
    if 64 ≤ pic_idx then (CbOutcome.panics, none)
    else
      match pollsUntilFree env.maskAt pic_idx fuel with
      | none => (CbOutcome.blocked, none)
      | some _ =>
        if env.decoderNullAfterWait then (CbOutcome.returns 0, none)
        else
          if env.pushOk = false then (CbOutcome.returns 0, some pic_idx)
          else if env.decodeOk = false then (CbOutcome.returns 0, some pic_idx)
          else if env.popOk = false then (CbOutcome.returns 0, some pic_idx)
          else (CbOutcome.returns 1, some pic_idx)

/-! ### Sequence callback (decoder.rs lines 256-554)

`Inner::sequence_cb`, translated branch for branch.  The engine calls
(`cuCtxPushCurrent`, `cuvidGetDecoderCaps`, `cuCtxPopCurrent`,
`cuvidCreateDecoder`, `cuvidReconfigureDecoder`) are modelled by the
status booleans and the caps record of `SeqEnv`.  The opaque
`CUvideodecoder` handle is modelled as `Option Nat`: `none` is the null
pointer, and `cuvidCreateDecoder` writes the fresh handle `newHandle`.
`SeqEffect` records the engine-visible effects: whether
`cuvidDestroyDecoder` was called (which in the source is preceded by
blocking until the frames-in-flight count reaches zero), the
`CUVIDDECODECREATEINFO` passed to `cuvidCreateDecoder`, and the
`CUVIDRECONFIGUREDECODERINFO` passed to `cuvidReconfigureDecoder`. -/

def ADDITIONAL_DECODE_SURFACES : Nat := 3

/-- `min_surfaces` at decoder.rs line 302: `u8` addition of the engine
minimum and the fixed headroom (wrapping at 256). -/
def minSurfacesOf (m : Nat) : Nat :=
  (m + ADDITIONAL_DECODE_SURFACES) % 256

structure VideoFormat where
  codec : Nat
  chroma_format : VideoChromaFormat
  bit_depth_luma_minus8 : Nat
  bit_depth_chroma_minus8 : Nat
  min_num_decode_surfaces : Nat
  coded_width : Nat
  coded_height : Nat
  display_left : Int
  display_top : Int
  display_right : Int
  display_bottom : Int
  progressive_sequence : Nat
deriving DecidableEq, Repr

structure DecodeCaps where
  bIsSupported : Nat
  nOutputFormatMask : Nat
  nMaxWidth : Nat
  nMaxHeight : Nat
  nMaxMBCount : Nat
deriving DecidableEq, Repr

structure CreateInfo where
  CodecType : Nat
  ChromaFormat : VideoChromaFormat
  OutputFormat : VideoSurfaceFormat
  bitDepthMinus8 : Nat
  deinterlaceWeave : Bool
  ulNumOutputSurfaces : Nat
  ulNumDecodeSurfaces : Nat
  ulWidth : Nat
  ulHeight : Nat
  ulMaxWidth : Nat
  ulMaxHeight : Nat
  ulTargetWidth : Int
  ulTargetHeight : Int
  ulIntraDecodeOnly : Nat
  displayArea : Int × Int × Int × Int
deriving DecidableEq, Repr

structure ReconfigureInfo where
  ulWidth : Nat
  ulHeight : Nat
  ulTargetWidth : Int
  ulTargetHeight : Int
  ulNumDecodeSurfaces : Nat
  displayArea : Int × Int × Int × Int
deriving DecidableEq, Repr

structure InnerState where
  decoder : Option Nat
  codec : Nat
  chroma_format : VideoChromaFormat
  bit_depth_minus8 : Nat
  bpp : Nat
  output_format : VideoSurfaceFormat
  out_size : Nat × Nat
  coded_size : Nat × Nat
  requested_size : Nat × Nat
  video_fmt : Option VideoFormat
  requested_output_surfaces : Option Nat
  requested_decode_surfaces : Option Nat
  current_output_surfaces : Nat
  keyframe_only : Bool
deriving DecidableEq, Repr

structure SeqEnv where
  push1Ok : Bool
  capsOk : Bool
  caps : DecodeCaps
  pop1Ok : Bool
  push2Ok : Bool
  createOk : Bool
  reconfigureOk : Bool
  pop2Ok : Bool
deriving DecidableEq, Repr

structure SeqEffect where
  destroyCalled : Bool
  created : Option CreateInfo
  reconfigured : Option ReconfigureInfo
deriving DecidableEq, Repr

def sequence_cb (s0 : InnerState) (fmt : VideoFormat) (env : SeqEnv)
    (newHandle : Nat) : InnerState × SeqEffect × Int :=
  let min_surfaces := minSurfacesOf fmt.min_num_decode_surfaces
  let noEffect : SeqEffect := ⟨false, none, none⟩
  if env.push1Ok = false then (s0, noEffect, (min_surfaces : Int))
  else if env.capsOk = false then (s0, noEffect, (min_surfaces : Int))
  else if env.pop1Ok = false then (s0, noEffect, (min_surfaces : Int))
  else if env.caps.bIsSupported = 0 then (s0, noEffect, (min_surfaces : Int))
  else if env.caps.nMaxWidth < fmt.coded_width ∨
      env.caps.nMaxHeight < fmt.coded_height then
    (s0, noEffect, (min_surfaces : Int))
  else if env.caps.nMaxMBCount < (fmt.coded_width >>> 4) * (fmt.coded_height >>> 4) then
    (s0, noEffect, (min_surfaces : Int))
  else
    let force_recreate : Bool := true
    let force_recreate : Bool :=
      if s0.decoder.isSome && (s0.bit_depth_minus8 != fmt.bit_depth_luma_minus8)
      then true else force_recreate
    let force_recreate : Bool :=
      if s0.decoder.isSome && (s0.chroma_format != fmt.chroma_format)
      then true else force_recreate
    let res_change : Bool :=
      ! (fmt.coded_width == s0.coded_size.1 && fmt.coded_height == s0.coded_size.2)
    let s1 := { s0 with
      codec := fmt.codec
      chroma_format := fmt.chroma_format
      bit_depth_minus8 := fmt.bit_depth_luma_minus8
      bpp := if 0 < fmt.bit_depth_luma_minus8 then 2 else 1
      output_format := VideoSurfaceFormat.NV12 }
    if env.caps.nOutputFormatMask &&& (1 <<< VideoSurfaceFormat.NV12.code) = 0 then
      (s1, noEffect, 0)
    else
      let s2 := { s1 with video_fmt := some fmt }
      let decode_surfaces := max min_surfaces (s2.requested_decode_surfaces.getD 1)
      let num_output_surfaces :=
        match s2.requested_output_surfaces with
        | some n => if n = 0 then decode_surfaces else n
        | none => 3
      let info0 : CreateInfo := {
        CodecType := s2.codec
        ChromaFormat := s2.chroma_format
        OutputFormat := s2.output_format
        bitDepthMinus8 := fmt.bit_depth_luma_minus8
        deinterlaceWeave := fmt.progressive_sequence != 0
        ulNumOutputSurfaces := num_output_surfaces
        ulNumDecodeSurfaces := decode_surfaces
        ulWidth := fmt.coded_width
        ulHeight := fmt.coded_height
        ulMaxWidth := fmt.coded_width
        ulMaxHeight := fmt.coded_height
        ulTargetWidth := fmt.display_right - fmt.display_left
        ulTargetHeight := fmt.display_bottom - fmt.display_top
        ulIntraDecodeOnly := if s2.keyframe_only then 1 else 0
        displayArea := (0, 0, 0, 0) }
      let s3 := { s2 with current_output_surfaces := num_output_surfaces }
      let both :=
        if 0 < s3.requested_size.1 ∧ 0 < s3.requested_size.2 then
          let s4 := { s3 with out_size := s3.requested_size,
                              coded_size := s3.requested_size }
          (s4, { info0 with
            displayArea := (fmt.display_left, fmt.display_top,
                            fmt.display_right, fmt.display_bottom)
            ulTargetWidth := (s4.out_size.1 : Int)
            ulTargetHeight := (s4.out_size.2 : Int) })
        else
          ({ s3 with
             out_size := ((fmt.display_right - fmt.display_left).toNat,
                          (fmt.display_bottom - fmt.display_top).toNat)
             coded_size := (fmt.coded_width, fmt.coded_height) }, info0)
      let s4 := both.1
      let info := both.2
      if env.push2Ok = false then (s4, noEffect, (min_surfaces : Int))
      else
        let destroyCalled := force_recreate
        let s5 := if force_recreate then { s4 with decoder := none } else s4
        match s5.decoder with
        | none =>
          if env.createOk = false then
            (s5, ⟨destroyCalled, none, none⟩, (min_surfaces : Int))
          else
            let s6 := { s5 with decoder := some newHandle }
            if env.pop2Ok = false then
              (s6, ⟨destroyCalled, some info, none⟩, (min_surfaces : Int))
            else
              (s6, ⟨destroyCalled, some info, none⟩, u64_as_i32 decode_surfaces)
        | some _ =>
          if res_change = false then
            if env.pop2Ok = false then
              (s5, ⟨destroyCalled, none, none⟩, (min_surfaces : Int))
            else
              (s5, ⟨destroyCalled, none, none⟩, u64_as_i32 decode_surfaces)
          else
            let rinfo0 : ReconfigureInfo := {
              ulWidth := fmt.coded_width
              ulHeight := fmt.coded_height
              ulTargetWidth := (fmt.coded_width : Int)
              ulTargetHeight := (fmt.coded_height : Int)
              ulNumDecodeSurfaces := decode_surfaces
              displayArea := (0, 0, 0, 0) }
            let rinfo :=
              if 0 < s5.requested_size.1 ∧ 0 < s5.requested_size.2 then
                { rinfo0 with
                  displayArea := (fmt.display_left, fmt.display_top,
                                  fmt.display_right, fmt.display_bottom)
                  ulTargetWidth := (s5.out_size.1 : Int)
                  ulTargetHeight := (s5.out_size.2 : Int) }
              else rinfo0
            if env.reconfigureOk = false then
              (s5, ⟨destroyCalled, none, some rinfo⟩, (min_surfaces : Int))
            else if env.pop2Ok = false then
              (s5, ⟨destroyCalled, none, some rinfo⟩, (min_surfaces : Int))
            else
              (s5, ⟨destroyCalled, none, some rinfo⟩, u64_as_i32 decode_surfaces)

/-! ### Consumer-facing frame mapping (decoder.rs lines 664-740)

`FramesIter::map_frame`: push the device context (failure -> no frame,
gate untouched); acquire the frames-in-flight gate; map the surface
(failure -> no frame; the source returns without decrementing the counter
it just incremented); query the decode status (classifies
none/concealed/hard, attached as metadata); pop the context (failure only
logs).  The result carries the new frames-in-flight count. -/

/-- `cuvidDecodeStatus` values (SDK header; bindings crate external):
`Error = 8`, `Error_Concealed = 9`. -/
def cuvidDecodeStatus_Error : Nat := 8

def cuvidDecodeStatus_Error_Concealed : Nat := 9

structure GpuFrameM where
  width : Nat
  height : Nat
  ptr : Nat
  pitch : Nat
  timestamp : Int
  idx : Int
  has_concealed_error : Option Bool
deriving DecidableEq, Repr

structure MapEnv where
  pushOk : Bool
  mapOk : Bool
  mapPtr : Nat
  mapPitch : Nat
  statusOk : Bool
  decodeStatus : Nat
  popOk : Bool
deriving DecidableEq, Repr

inductive MapOutcome where
  | blocked
  | done (frame : Option GpuFrameM)
deriving DecidableEq, Repr

def map_frame (bound : Nat) (count : Int) (out_size : Nat × Nat)
    (frame : PreparedFrame) (env : MapEnv) : MapOutcome × Int :=
  if env.pushOk = false then (MapOutcome.done none, count)
  else
    match gateAcquire bound count with
    | none => (MapOutcome.blocked, count)
    | some count' =>
      if env.mapOk = false then (MapOutcome.done none, count')
      else
        let has_concealed_error :=
          if env.statusOk then
            if env.decodeStatus = cuvidDecodeStatus_Error then some false
            else if env.decodeStatus = cuvidDecodeStatus_Error_Concealed then some true
            else none
          else none
        (MapOutcome.done (some {
          width := out_size.1
          height := out_size.2
          ptr := env.mapPtr
          pitch := env.mapPitch
          timestamp := frame.timestamp
          idx := frame.index
          has_concealed_error := has_concealed_error }), count')

end NvCodec

namespace NvCodec

theorem gateReach_count_eq_handles {bound : Nat} {c : Int} {h : Nat}
    (hr : GateReach bound c h) : c = h ∧ c ≤ (bound : Int) := by
  induction hr with
  | start => exact ⟨rfl, by exact_mod_cast Nat.zero_le bound⟩
  | acquire hr hacq ih =>
    rcases ih with ⟨heq, _⟩
    unfold gateAcquire at hacq
    split at hacq
    · rename_i hlt
      cases hacq
      constructor
      · rw [heq]; push_cast; ring
      · omega
    · cases hacq
  | release hr ih =>
    rcases ih with ⟨heq, hle⟩
    unfold gpuFrameDropCount
    constructor
    · simp only []
      rw [heq]; push_cast; ring
    · simp only []
      omega

theorem poolReach_conservation {C : Nat} {free : List Nat} {out : Multiset Nat}
    (hr : PoolReach C free out) : (free : Multiset Nat) + out = Multiset.range C := by
  induction hr with
  | start => simp [Multiset.range]
  | get hr hget ih =>
    rename_i free free' p out
    match free, hget with
    | q :: rest, hget =>
      unfold poolGet at hget
      simp only [Option.some.injEq, Prod.mk.injEq] at hget
      rcases hget with ⟨hp, hrest⟩
      subst hp; subst hrest
      rw [← ih, Multiset.add_cons, ← Multiset.cons_coe, Multiset.cons_add]
  | put hr hmem ih =>
    rename_i free p out
    unfold poolPut
    rw [← ih]
    show ((free ++ [p] : List Nat) : Multiset Nat) + Multiset.erase out p
        = (free : Multiset Nat) + out
    have hco : ((free ++ [p] : List Nat) : Multiset Nat) =
        (free : Multiset Nat) + {p} := rfl
    rw [hco, add_assoc, Multiset.singleton_add, Multiset.cons_erase hmem]

/-- C4: the frames-in-flight counter always satisfies
`0 <= count <= current_output_surfaces`: in every reachable gate state the
count is within bounds; the acquisition in the frame-mapping step blocks
exactly while `count >= bound` before incrementing; and the release in
`GpuFrame::drop` decrements the counter by exactly one and performs one
`notify_one`. -/
theorem frames_in_flight_gate_invariant (bound : Nat) (c : Int) (h : Nat)
    (hr : GateReach bound c h) :
    (0 ≤ c ∧ c ≤ (bound : Int)) ∧
    (∀ c0 : Int, gateAcquire bound c0 = none ↔ (bound : Int) ≤ c0) ∧
    (∀ c0 : Int, gateAcquire bound c0 ≠ none → gateAcquire bound c0 = some (c0 + 1)) ∧
    (∀ c0 : Int, gpuFrameDropCount c0 = (c0 - 1, 1)) := by
  refine ⟨?_, ?_, ?_, fun c0 => rfl⟩
  · rcases gateReach_count_eq_handles hr with ⟨heq, hle⟩
    refine ⟨?_, hle⟩
    rw [heq]
    exact_mod_cast Nat.zero_le h
  · intro c0
    unfold gateAcquire
    split
    · rename_i hlt
      simp
      omega
    · rename_i hlt
      simp
      omega
  · intro c0 hne
    unfold gateAcquire at hne ⊢
    split at hne
    · rename_i hlt
      rw [if_pos hlt]
    · simp at hne

/-- Witness for C4 at a concrete reachable state: bound 2, one frame
mapped. -/
theorem frames_in_flight_gate_invariant_witness :
    (0 ≤ (1 : Int) ∧ (1 : Int) ≤ ((2 : Nat) : Int)) ∧
    (∀ c0 : Int, gateAcquire 2 c0 = none ↔ ((2 : Nat) : Int) ≤ c0) ∧
    (∀ c0 : Int, gateAcquire 2 c0 ≠ none → gateAcquire 2 c0 = some (c0 + 1)) ∧
    (∀ c0 : Int, gpuFrameDropCount c0 = (c0 - 1, 1)) :=
  frames_in_flight_gate_invariant 2 1 1
    (GateReach.acquire GateReach.start (by decide))

/-- C6: for a pool of capacity `C`, in every reachable state the free
queue and the outstanding permits together form exactly the multiset
`{0, ..., C-1}` (hence at most `C` permits are outstanding); `get()`
blocks exactly on the empty queue and removes one index; `put` pushes the
index back and wakes one waiter (one `notify_one`); and a permit just
released into an empty queue is immediately handed to the next `get()`. -/
theorem resource_pool_invariant (C : Nat) (free : List Nat) (out : Multiset Nat)
    (hr : PoolReach C free out) :
    ((free : Multiset Nat) + out = Multiset.range C ∧ Multiset.card out ≤ C) ∧
    poolGet [] = none ∧
    (∀ q : List Nat, ∀ p : Nat, poolPut q p = (q ++ [p], 1)) ∧
    (∀ p : Nat, poolGet (poolPut [] p).1 = some (p, [])) := by
  refine ⟨⟨poolReach_conservation hr, ?_⟩, rfl, fun q p => rfl, fun p => rfl⟩
  have h := poolReach_conservation hr
  have h2 : Multiset.card (free : Multiset Nat) + Multiset.card out = C := by
    have hc := congrArg Multiset.card h
    simpa [Multiset.card_add, Multiset.card_range] using hc
  omega

/-- Witness for C6 at a concrete reachable state: capacity 2, permit 0
outstanding. -/
theorem resource_pool_invariant_witness :
    ((([1] : List Nat) : Multiset Nat) + (0 ::ₘ (0 : Multiset Nat)) = Multiset.range 2 ∧
      Multiset.card (0 ::ₘ (0 : Multiset Nat)) ≤ 2) ∧
    poolGet [] = none ∧
    (∀ q : List Nat, ∀ p : Nat, poolPut q p = (q ++ [p], 1)) ∧
    (∀ p : Nat, poolGet (poolPut [] p).1 = some (p, [])) :=
  (resource_pool_invariant 2 [1] (0 ::ₘ (0 : Multiset Nat))
    (PoolReach.get PoolReach.start rfl))

/-- C5: a submission answered "need more input" pushes the mapped resource
onto the pending queue without sending anything to the retrieval channel;
a successful submission flushes every previously deferred resource in
original order followed by the new one; in particular one deferral
followed by one success yields both flushed in order. -/
theorem encoder_deferral_flush_order (s : EncPipelineState) (r r1 r2 : Nat)
    (hopen : s.senderOpen = true) (hpend : s.pending = []) :
    (queue_gpu_frame s r SubmitStatus.needMoreInput
      = ({ s with pending := s.pending ++ [r] }, QueueResult.ok false)) ∧
    (∀ t : EncPipelineState, t.senderOpen = true →
      queue_gpu_frame t r SubmitStatus.success
        = ({ t with pending := [], channel := t.channel ++ t.pending ++ [r] },
           QueueResult.ok true)) ∧
    (queue_gpu_frame
        (queue_gpu_frame s r1 SubmitStatus.needMoreInput).1 r2
        SubmitStatus.success).1.channel = s.channel ++ [r1, r2] := by
  obtain ⟨so, pend, ch⟩ := s
  cases hopen
  cases hpend
  refine ⟨rfl, ?_, ?_⟩
  · intro t ht
    obtain ⟨t0, tp, tc⟩ := t
    cases ht
    rfl
  · simp [queue_gpu_frame]

/-- Witness for C5: empty pipeline, resources 5 then 6, 7. -/
theorem encoder_deferral_flush_order_witness :
    (queue_gpu_frame ⟨true, [], []⟩ 5 SubmitStatus.needMoreInput
      = (⟨true, [5], []⟩, QueueResult.ok false)) ∧
    (∀ t : EncPipelineState, t.senderOpen = true →
      queue_gpu_frame t 5 SubmitStatus.success
        = ({ t with pending := [], channel := t.channel ++ t.pending ++ [5] },
           QueueResult.ok true)) ∧
    (queue_gpu_frame
        (queue_gpu_frame ⟨true, [], []⟩ 6 SubmitStatus.needMoreInput).1 7
        SubmitStatus.success).1.channel = [6, 7] :=
  encoder_deferral_flush_order ⟨true, [], []⟩ 5 6 7 rfl rfl

/-- C7: a null invocation of the picture-display callback closes the
frame delivery channel (drops the sender) and returns 1; every invocation
after the sentinel, null or not, returns 1 and leaves the state
unchanged. -/
theorem display_eos_idempotent (s : DisplayState) (i : Option DispInfo) :
    (picture_display_cb s none).2 = 1 ∧
    (picture_display_cb s none).1.senderOpen = false ∧
    picture_display_cb (picture_display_cb s none).1 i
      = ((picture_display_cb s none).1, 1) := by
  obtain ⟨so, ra, ch⟩ := s
  refine ⟨rfl, rfl, ?_⟩
  cases i with
  | none => rfl
  | some di => rfl

/-- C8: once the encoder session is torn down (sender dropped and the
bitstream vector deallocated), every call of the retrieval iterator
yields end-of-stream rather than an error, whatever is still queued. -/
theorem encoder_retrieval_eos_after_teardown (s : EncFramesState)
    (tovec : Nat → Option (List Nat × Bool × Nat × Nat))
    (hsend : s.senderOpen = false) (halive : s.bitstreamAlive = false) :
    (enc_frames_next s tovec).1 = EncNext.eos := by
  obtain ⟨ch, so, ba⟩ := s
  cases hsend
  cases halive
  cases ch with
  | nil => rfl
  | cons p rest => rfl

/-- Witness for C8: torn-down session with one resource still queued. -/
theorem encoder_retrieval_eos_after_teardown_witness :
    (enc_frames_next ⟨[3], false, false⟩ (fun _ => none)).1 = EncNext.eos :=
  encoder_retrieval_eos_after_teardown ⟨[3], false, false⟩ (fun _ => none) rfl rfl

/-- C9 counterexample: the callback does not panic for every index outside
[0, 64) — with the decoder handle null at entry and target index 64, the
null-decoder check (decoder.rs line 557) fires before the range check
(line 565) and the callback returns 0 instead of panicking. -/
theorem picture_decode_panic_iff_counterexample :
    64 ≤ i32_as_usize 64 ∧
    (picture_decode_cb ⟨true, fun _ => 0, false, true, true, true⟩ 64 1).1
      = CbOutcome.returns 0 ∧
    CbOutcome.returns 0 ≠ CbOutcome.panics := by
  refine ⟨by norm_num [i32_as_usize], rfl, by decide⟩

/-- C9 amended: the picture-decode callback panics exactly when a decoder
handle is present at entry and the target surface index is outside
[0, 64); for indices in [0, 64) it never panics; every return code is 0
or 1, and 1 occurs only when the decoder survived the wait and every
engine call succeeded (all other failure conditions return 0). -/
theorem picture_decode_cb_panic_characterization (env : DecodeCbEnv)
    (currPicIdx : Int) (fuel : Nat) :
    ((picture_decode_cb env currPicIdx fuel).1 = CbOutcome.panics
      ↔ env.decoderNullAtEntry = false ∧ 64 ≤ i32_as_usize currPicIdx) ∧
    (i32_as_usize currPicIdx < 64 →
      (picture_decode_cb env currPicIdx fuel).1 ≠ CbOutcome.panics) ∧
    (∀ c : Int, (picture_decode_cb env currPicIdx fuel).1 = CbOutcome.returns c →
      c = 0 ∨ c = 1) ∧
    ((picture_decode_cb env currPicIdx fuel).1 = CbOutcome.returns 1 →
      env.decoderNullAtEntry = false ∧ env.decoderNullAfterWait = false ∧
      env.pushOk = true ∧ env.decodeOk = true ∧ env.popOk = true) := by
  obtain ⟨b1, m, b2, b3, b4, b5⟩ := env
  unfold picture_decode_cb
  simp only
  cases b1 with
  | true => simp
  | false =>
    by_cases hge : 64 ≤ i32_as_usize currPicIdx
    · simp [hge]
    · rw [if_neg hge]
      cases hpoll : pollsUntilFree m (i32_as_usize currPicIdx) fuel with
      | none => simp [hge]
      | some t =>
        cases b2 with
        | true => simp [hge]
        | false =>
          cases b3 <;> cases b4 <;> cases b5 <;> simp [hge]

/-- Witness for C9's amended theorem: index 5 with the surface free at
the first poll and all engine calls succeeding never panics. -/
theorem picture_decode_cb_panic_characterization_witness :
    (picture_decode_cb ⟨false, fun _ => 0, false, true, true, true⟩ 5 1).1
      ≠ CbOutcome.panics :=
  (picture_decode_cb_panic_characterization
    ⟨false, fun _ => 0, false, true, true, true⟩ 5 1).2.1
    (by norm_num [i32_as_usize])

/-- C1 (code evaluated at the failing input): with an existing decoder
(handle 7), unchanged bit depth and chroma format, and only the coded
resolution changed (1280x720 -> 1920x1080), the sequence callback still
takes the recreation path — `cuvidDestroyDecoder` is called and a fresh
handle (8) replaces the old one — because `force_recreate` is initialised
to `true` at decoder.rs line 347 and never cleared, so the reconfigure
branch (lines 507-545) is unreachable.  The claim's reconfigure-in-place
behaviour does not occur. -/
theorem sequence_cb_res_change_recreates :
    (sequence_cb
      ⟨some 7, 4, VideoChromaFormat.YUV420, 0, 1, VideoSurfaceFormat.NV12,
       (1280, 720), (1280, 720), (0, 0), none, none, none, 3, false⟩
      ⟨4, VideoChromaFormat.YUV420, 0, 0, 4, 1920, 1080, 0, 0, 1920, 1080, 1⟩
      ⟨true, true, ⟨1, 1, 4096, 4096, 1000000⟩, true, true, true, true, true⟩
      8).1.decoder = some 8 ∧
    (sequence_cb
      ⟨some 7, 4, VideoChromaFormat.YUV420, 0, 1, VideoSurfaceFormat.NV12,
       (1280, 720), (1280, 720), (0, 0), none, none, none, 3, false⟩
      ⟨4, VideoChromaFormat.YUV420, 0, 0, 4, 1920, 1080, 0, 0, 1920, 1080, 1⟩
      ⟨true, true, ⟨1, 1, 4096, 4096, 1000000⟩, true, true, true, true, true⟩
      8).2.1.destroyCalled = true ∧
    (sequence_cb
      ⟨some 7, 4, VideoChromaFormat.YUV420, 0, 1, VideoSurfaceFormat.NV12,
       (1280, 720), (1280, 720), (0, 0), none, none, none, 3, false⟩
      ⟨4, VideoChromaFormat.YUV420, 0, 0, 4, 1920, 1080, 0, 0, 1920, 1080, 1⟩
      ⟨true, true, ⟨1, 1, 4096, 4096, 1000000⟩, true, true, true, true, true⟩
      8).2.1.reconfigured = none ∧
    (some 8 : Option Nat) ≠ some 7 := by
  refine ⟨rfl, rfl, rfl, by decide⟩

/-- C2 (code evaluated at the failing input): device-context activation
succeeds, the frames-in-flight gate slot is acquired (count 0 -> 1,
bound 3), then `cuvidMapVideoFrame64` fails — the call returns no frame
but the counter stays at 1: the pre-acquired gate slot is not released
(decoder.rs lines 690-702 return without decrementing). -/
theorem map_frame_map_failure_leaks_gate_slot :
    map_frame 3 0 (1280, 720) ⟨0, 0, ⟨1, 2, 0, 0⟩⟩
      ⟨true, false, 0, 0, true, 0, true⟩
      = (MapOutcome.done none, 1) ∧ (1 : Int) ≠ 0 := by
  refine ⟨rfl, by decide⟩

/-- C3 (Scenario A): when every engine call succeeds, the stream is within
device limits, the surface requests are unset and the engine reports a
minimum of 4 decode surfaces, `min_surfaces` is 4 + 3 = 7 and the decoder
is created with `ulNumDecodeSurfaces = 7` and `ulNumOutputSurfaces = 3`,
the callback returning 7. -/
theorem sequence_cb_scenario_a (s : InnerState) (fmt : VideoFormat)
    (env : SeqEnv) (newHandle : Nat)
    (hdec : s.decoder = none)
    (hreqd : s.requested_decode_surfaces = none)
    (hreqo : s.requested_output_surfaces = none)
    (hmin : fmt.min_num_decode_surfaces = 4)
    (hpush1 : env.push1Ok = true) (hcaps : env.capsOk = true)
    (hpop1 : env.pop1Ok = true)
    (hsupp : env.caps.bIsSupported ≠ 0)
    (hw : fmt.coded_width ≤ env.caps.nMaxWidth)
    (hh : fmt.coded_height ≤ env.caps.nMaxHeight)
    (hmb : (fmt.coded_width >>> 4) * (fmt.coded_height >>> 4) ≤ env.caps.nMaxMBCount)
    (hmask : env.caps.nOutputFormatMask &&& (1 <<< VideoSurfaceFormat.NV12.code) ≠ 0)
    (hpush2 : env.push2Ok = true) (hcreate : env.createOk = true)
    (hpop2 : env.pop2Ok = true) :
    minSurfacesOf fmt.min_num_decode_surfaces = 7 ∧
    (sequence_cb s fmt env newHandle).2.2 = 7 ∧
    ∃ info : CreateInfo,
      (sequence_cb s fmt env newHandle).2.1.created = some info ∧
      info.ulNumDecodeSurfaces = 7 ∧ info.ulNumOutputSurfaces = 3 := by
  simp [VideoSurfaceFormat.code] at hmask
  have hw' : ¬ (env.caps.nMaxWidth < fmt.coded_width) := Nat.not_lt.mpr hw
  have hh' : ¬ (env.caps.nMaxHeight < fmt.coded_height) := Nat.not_lt.mpr hh
  have hmb' : ¬ (env.caps.nMaxMBCount <
      (fmt.coded_width >>> 4) * (fmt.coded_height >>> 4)) := Nat.not_lt.mpr hmb
  refine ⟨by rw [hmin]; rfl, ?_⟩
  by_cases hrs : 0 < s.requested_size.1 ∧ 0 < s.requested_size.2 <;>
    simp [sequence_cb, minSurfacesOf, ADDITIONAL_DECODE_SURFACES,
      VideoSurfaceFormat.code, hdec, hreqd, hreqo, hmin, hpush1, hcaps, hpop1,
      hsupp, hw', hh', hmb', hmask, hpush2, hcreate, hpop2, hrs, u64_as_i32]

/-- Witness for C3: concrete fresh decoder state, 1920x1080 stream with
engine minimum 4, all engine calls succeeding. -/
theorem sequence_cb_scenario_a_witness :
    minSurfacesOf 4 = 7 ∧
    (sequence_cb
      ⟨none, 4, VideoChromaFormat.YUV420, 0, 1, VideoSurfaceFormat.NV12,
       (0, 0), (0, 0), (0, 0), none, none, none, 0, false⟩
      ⟨4, VideoChromaFormat.YUV420, 0, 0, 4, 1920, 1080, 0, 0, 1920, 1080, 1⟩
      ⟨true, true, ⟨1, 1, 4096, 4096, 1000000⟩, true, true, true, true, true⟩
      1).2.2 = 7 ∧
    ∃ info : CreateInfo,
      (sequence_cb
        ⟨none, 4, VideoChromaFormat.YUV420, 0, 1, VideoSurfaceFormat.NV12,
         (0, 0), (0, 0), (0, 0), none, none, none, 0, false⟩
        ⟨4, VideoChromaFormat.YUV420, 0, 0, 4, 1920, 1080, 0, 0, 1920, 1080, 1⟩
        ⟨true, true, ⟨1, 1, 4096, 4096, 1000000⟩, true, true, true, true, true⟩
        1).2.1.created = some info ∧
      info.ulNumDecodeSurfaces = 7 ∧ info.ulNumOutputSurfaces = 3 :=
  sequence_cb_scenario_a
    ⟨none, 4, VideoChromaFormat.YUV420, 0, 1, VideoSurfaceFormat.NV12,
     (0, 0), (0, 0), (0, 0), none, none, none, 0, false⟩
    ⟨4, VideoChromaFormat.YUV420, 0, 0, 4, 1920, 1080, 0, 0, 1920, 1080, 1⟩
    ⟨true, true, ⟨1, 1, 4096, 4096, 1000000⟩, true, true, true, true, true⟩
    1 rfl rfl rfl rfl rfl rfl rfl (by decide) (by decide) (by decide)
    (by decide) (by decide) rfl rfl rfl

/-- C10: on the decoder-creation path, a requested output-surface count of
exactly 0 makes `ulNumOutputSurfaces` equal to the negotiated
decode-surface count (the max of `min_surfaces` and the requested
decode-surface count); a requested count `n > 0` is used as-is; an unset
request defaults to 3. -/
theorem sequence_cb_output_surface_sizing (s : InnerState) (fmt : VideoFormat)
    (env : SeqEnv) (newHandle : Nat)
    (hdec : s.decoder = none)
    (hpush1 : env.push1Ok = true) (hcaps : env.capsOk = true)
    (hpop1 : env.pop1Ok = true)
    (hsupp : env.caps.bIsSupported ≠ 0)
    (hw : fmt.coded_width ≤ env.caps.nMaxWidth)
    (hh : fmt.coded_height ≤ env.caps.nMaxHeight)
    (hmb : (fmt.coded_width >>> 4) * (fmt.coded_height >>> 4) ≤ env.caps.nMaxMBCount)
    (hmask : env.caps.nOutputFormatMask &&& (1 <<< VideoSurfaceFormat.NV12.code) ≠ 0)
    (hpush2 : env.push2Ok = true) (hcreate : env.createOk = true)
    (hpop2 : env.pop2Ok = true) :
    ∃ info : CreateInfo,
      (sequence_cb s fmt env newHandle).2.1.created = some info ∧
      info.ulNumDecodeSurfaces
        = max (minSurfacesOf fmt.min_num_decode_surfaces)
            (s.requested_decode_surfaces.getD 1) ∧
      info.ulNumOutputSurfaces
        = (match s.requested_output_surfaces with
           | some n => if n = 0 then info.ulNumDecodeSurfaces else n
           | none => 3) := by
  simp [VideoSurfaceFormat.code] at hmask
  have hw' : ¬ (env.caps.nMaxWidth < fmt.coded_width) := Nat.not_lt.mpr hw
  have hh' : ¬ (env.caps.nMaxHeight < fmt.coded_height) := Nat.not_lt.mpr hh
  have hmb' : ¬ (env.caps.nMaxMBCount <
      (fmt.coded_width >>> 4) * (fmt.coded_height >>> 4)) := Nat.not_lt.mpr hmb
  by_cases hrs : 0 < s.requested_size.1 ∧ 0 < s.requested_size.2 <;>
    simp [sequence_cb, VideoSurfaceFormat.code, hdec, hpush1, hcaps, hpop1,
      hsupp, hw', hh', hmb', hmask, hpush2, hcreate, hpop2, hrs, minSurfacesOf,
      ADDITIONAL_DECODE_SURFACES]

/-- Witness for C10: requested output-surface count 0 with engine minimum
4 and no decode-surface request yields `ulNumOutputSurfaces` equal to the
negotiated decode-surface count 7. -/
theorem sequence_cb_output_surface_sizing_witness :
    ∃ info : CreateInfo,
      (sequence_cb
        ⟨none, 4, VideoChromaFormat.YUV420, 0, 1, VideoSurfaceFormat.NV12,
         (0, 0), (0, 0), (0, 0), none, some 0, none, 0, false⟩
        ⟨4, VideoChromaFormat.YUV420, 0, 0, 4, 1920, 1080, 0, 0, 1920, 1080, 1⟩
        ⟨true, true, ⟨1, 1, 4096, 4096, 1000000⟩, true, true, true, true, true⟩
        1).2.1.created = some info ∧
      info.ulNumDecodeSurfaces = max (minSurfacesOf 4) (Option.getD none 1) ∧
      info.ulNumOutputSurfaces
        = (match (some 0 : Option Nat) with
           | some n => if n = 0 then info.ulNumDecodeSurfaces else n
           | none => 3) :=
  sequence_cb_output_surface_sizing
    ⟨none, 4, VideoChromaFormat.YUV420, 0, 1, VideoSurfaceFormat.NV12,
     (0, 0), (0, 0), (0, 0), none, some 0, none, 0, false⟩
    ⟨4, VideoChromaFormat.YUV420, 0, 0, 4, 1920, 1080, 0, 0, 1920, 1080, 1⟩
    ⟨true, true, ⟨1, 1, 4096, 4096, 1000000⟩, true, true, true, true, true⟩
    1 rfl rfl rfl rfl (by decide) (by decide) (by decide) (by decide)
    (by decide) rfl rfl rfl

end NvCodec
